import Mathlib

/-!
Shallow embedding of the api2html rendering engine (src/engine/mustache.go and
src/engine/handler.go): the partial resolver, the template/renderer compilation
batch, the handler subscription protocol and request path, and the layout
composition of the mustache renderer.
-/

namespace Engine

/-- A Go-style `(string, error)` return value: the text and an optional error. -/
structure GoResult where
  text : String
  err : Option String
deriving DecidableEq, Repr

/-- Embedding of `partialProvider.Get` (src/engine/mustache.go lines 91-97):
query the static pool; if it returned a nil error and non-empty text, return
that text with a nil error; otherwise return the dynamic pool's result. -/
def partialProvider.Get (statics dynamc : String → GoResult) (name : String) : GoResult :=
  let r := statics name
  if r.err = none ∧ r.text ≠ "" then ⟨r.text, none⟩ else dynamc name

/-- The static pool of scenario D of the spec: `{"x": ""}`.  The mustache
`StaticProvider` returns the stored text with a nil error, and `("", nil)` for
an absent name, so this pool is the constant `("", nil)` function. -/
def exampleStatics : String → GoResult := fun _ => ⟨"", none⟩

/-- The dynamic pool of scenario D of the spec: `{"x": "hello"}`, erroring on
any other name (e.g. a filesystem provider with a single file). -/
def exampleDynamic : String → GoResult :=
  fun n => if n = "x" then ⟨"hello", none⟩ else ⟨"", some "file not found"⟩

/-- Decidable equality for Go-style fallible results. -/
instance {ε α : Type} [DecidableEq ε] [DecidableEq α] : DecidableEq (Except ε α) := fun a b =>
  match a, b with
  | Except.error e1, Except.error e2 => decidable_of_iff (e1 = e2) (by simp)
  | Except.error _, Except.ok _ => Decidable.isFalse (fun hc => Except.noConfusion hc)
  | Except.ok _, Except.error _ => Decidable.isFalse (fun hc => Except.noConfusion hc)
  | Except.ok a1, Except.ok a2 => decidable_of_iff (a1 = a2) (by simp)

/-- Opening then parsing a single template file, as the loop body of
`NewMustacheRendererMap` does (src/engine/mustache.go lines 17-29): `os.Open`
may fail, then `NewMustacheRenderer` may fail, each aborting with the error. -/
def compileOne {R : Type} (fsOpen : String → Except String String)
    (parse : String → Except String R) (path : String) : Except String R :=
  match fsOpen path with
  | Except.error e => Except.error e
  | Except.ok src => parse src

/-- The loop of `NewMustacheRendererMap` (src/engine/mustache.go lines 16-31):
walk the declared (name, path) entries, compiling each; on the first open or
parse failure return the map built so far together with the error, as the Go
code's early `return result, err` does. -/
def rendererMapLoop {R : Type} (fsOpen : String → Except String String)
    (parse : String → Except String R) :
    List (String × String) → List (String × R) → List (String × R) × Option String
  | [], acc => (acc, none)
  | (name, path) :: rest, acc =>
    match compileOne fsOpen parse path with
    | Except.error e => (acc, some e)
    | Except.ok r => rendererMapLoop fsOpen parse rest (acc ++ [(name, r)])

/-- Embedding of `NewMustacheRendererMap` (src/engine/mustache.go lines 14-33).
The declared templates and layouts are flattened to one entry list (the Go code
ranges over the two config maps in sequence); the filesystem and the mustache
parser are the external collaborators `fsOpen` and `parse`. -/
def NewMustacheRendererMap {R : Type} (fsOpen : String → Except String String)
    (parse : String → Except String R) (entries : List (String × String)) :
    List (String × R) × Option String :=
  rendererMapLoop fsOpen parse entries []

/-- A filesystem where the path "pa" fails to open and every other path opens. -/
def cexOpen : String → Except String String :=
  fun p => if p = "pa" then Except.error "open failed" else Except.ok "src"

/-- A parser that accepts every source text. -/
def cexParse : String → Except String Nat := fun _ => Except.ok 0

/-- A filesystem where only the path "bad" fails to open. -/
def wOpen : String → Except String String :=
  fun p => if p = "bad" then Except.error "boom" else Except.ok ("src of " ++ p)

/-- A parser that accepts every source text, numbering it by length. -/
def wParse : String → Except String Nat := fun s => Except.ok s.length

/-- The Page descriptor consumed by the handler (fields as used by
src/engine/handler.go: `Name`, `Template`, `Layout`, `CacheTTL`,
`BackendURLPattern`, `IsArray`). -/
structure Page where
  Name : String
  Template : String
  Layout : String
  CacheTTL : String
  BackendURLPattern : String
  IsArray : Bool
deriving DecidableEq, Repr

/-- The topic computed at the top of `Handler.updateRenderer`
(src/engine/handler.go lines 107-111): the template alone, or
`fmt.Sprintf("%s-:-%s", layout, template)` when the layout is non-empty. -/
def updateRendererTopic (p : Page) : String :=
  if p.Layout = "" then p.Template else p.Layout ++ "-:-" ++ p.Template

/-- Observable events of a Handler: the subscription goroutine delivers a new
Renderer on the Handler's Input channel and writes it to `h.Renderer`
(src/engine/handler.go line 114), or a request is served using whatever value
`h.Renderer` holds at that instant (src/engine/handler.go line 133). -/
inductive HandlerEvent (R : Type) where
  | deliver (r : R)
  | serve (r : R)
deriving DecidableEq, Repr

/-- Traces of a Handler constructed by `NewHandler` with initial renderer `r0`
(src/engine/handler.go lines 79-90): the current renderer starts as the one
supplied in the configuration; a delivery replaces it; a served request
observes the current renderer. -/
inductive HandlerTrace {R : Type} (r0 : R) : List (HandlerEvent R) → R → Prop where
  | nil : HandlerTrace r0 [] r0
  | deliver {es : List (HandlerEvent R)} {cur : R} (r : R) :
      HandlerTrace r0 es cur → HandlerTrace r0 (es ++ [HandlerEvent.deliver r]) r
  | serve {es : List (HandlerEvent R)} {cur : R} :
      HandlerTrace r0 es cur → HandlerTrace r0 (es ++ [HandlerEvent.serve cur]) cur

/-- The two suspension points of `Handler.updateRenderer`
(src/engine/handler.go lines 112-115): about to send the Subscription, or
blocked receiving on the private Input channel. -/
inductive LoopPhase where
  | registering
  | waiting
deriving DecidableEq, Repr

/-- Channel-level events of the subscription loop: a Subscription
`{topic, h.Input}` is accepted on the shared Subscribe channel, or a Renderer
arrives on the private Input channel. -/
inductive LoopEvent (R : Type) where
  | send (topic : String)
  | recv (r : R)
deriving DecidableEq, Repr

/-- State of the subscription loop: its phase plus the Handler's current
Renderer field. -/
structure LoopState (R : Type) where
  phase : LoopPhase
  renderer : R
deriving DecidableEq, Repr

/-- One step of `Handler.updateRenderer` (src/engine/handler.go lines 107-116):
from `registering` the loop can only send a Subscription carrying the Page's
topic and the private channel, then waits; from `waiting` it can only receive
one Renderer, write it to `h.Renderer`, and go back to registering. -/
def updateRendererStep {R : Type} (p : Page) (s : LoopState R) (e : LoopEvent R) :
    Option (LoopState R) :=
  match s.phase, e with
  | LoopPhase.registering, LoopEvent.send t =>
      if t = updateRendererTopic p then some ⟨LoopPhase.waiting, s.renderer⟩ else none
  | LoopPhase.waiting, LoopEvent.recv r => some ⟨LoopPhase.registering, r⟩
  | _, _ => none

/-- Event traces accepted by the subscription loop. -/
inductive LoopTrace {R : Type} (p : Page) : LoopState R → List (LoopEvent R) → LoopState R → Prop where
  | nil (s : LoopState R) : LoopTrace p s [] s
  | cons {s s1 s2 : LoopState R} {e : LoopEvent R} {es : List (LoopEvent R)} :
      updateRendererStep p s e = some s1 → LoopTrace p s1 es s2 →
      LoopTrace p s (e :: es) s2

/-- Whether a loop event is a Subscription send. -/
def isSendE {R : Type} : LoopEvent R → Bool
  | LoopEvent.send _ => true
  | LoopEvent.recv _ => false

/-- Whether a loop event is a Renderer delivery. -/
def isRecvE {R : Type} : LoopEvent R → Bool
  | LoopEvent.send _ => false
  | LoopEvent.recv _ => true

/-- Strict alternation of sends and receives as seen from a given phase: from
`registering` the next event must be a send, from `waiting` a receive. -/
def alternatesFrom {R : Type} : LoopPhase → List (LoopEvent R) → Bool
  | _, [] => true
  | LoopPhase.registering, e :: es => isSendE e && alternatesFrom LoopPhase.waiting es
  | LoopPhase.waiting, e :: es => isRecvE e && alternatesFrom LoopPhase.registering es

/-- The last Renderer received in an event list, if any. -/
def lastRecv {R : Type} : List (LoopEvent R) → Option R
  | [] => none
  | e :: es =>
    match lastRecv es with
    | some r => some r
    | none =>
      match e with
      | LoopEvent.recv r => some r
      | LoopEvent.send _ => none

/-- Outcome of one run of `Handler.HandlerFunc` (src/engine/handler.go lines
120-137): the abort status if any, the Cache-Control header if it was set, and
how many times the Renderer was invoked. -/
structure HandlerOutcome where
  abortedStatus : Option Nat
  cacheControl : Option String
  rendererCalls : Nat
deriving DecidableEq, Repr

/-- Embedding of `Handler.HandlerFunc` (src/engine/handler.go lines 120-137):
run the ResponseGenerator; on error abort with 500 before setting any header
or touching the Renderer; on success set the Cache-Control header, invoke the
Renderer once, and abort with 500 if the render failed. -/
def HandlerFunc {Req D : Type} (gen : Req → Except String D) (render : D → Option String)
    (cacheControl : String) (req : Req) : HandlerOutcome :=
  match gen req with
  | Except.error _ => ⟨some 500, none, 0⟩
  | Except.ok d =>
    match render d with
    | some _ => ⟨some 500, some cacheControl, 1⟩
    | none => ⟨none, some cacheControl, 1⟩

/-- Go's `int(d.Seconds())` on a Duration held as integer nanoseconds: the
whole seconds, truncated toward zero. -/
def goSeconds (ns : Int) : Int := Int.tdiv ns 1000000000

/-- The Cache-Control computation of `NewHandlerConfig` (src/engine/handler.go
lines 45-50): parse the Page's CacheTTL with `time.ParseDuration` (an external
collaborator, passed as `parseDuration`, yielding nanoseconds); on parse error
default to one hour; format `"public, max-age=%d"` with the whole seconds. -/
def newHandlerConfigCacheControl (parseDuration : String → Option Int) (cacheTTL : String) :
    String :=
  let d := (parseDuration cacheTTL).getD (3600 * 1000000000)
  "public, max-age=" ++ toString (goSeconds d)

/-- Modelled from the spec: `StaticResponseGenerator.ResponseGenerator` is not
under src/ (only its construction in src/engine/handler.go lines 52-60 is);
the spec says the static generator "always succeeds and returns the Page's
embedded fixed payload verbatim, ignoring the request". -/
def StaticResponseGenerator {Req D : Type} (fixedPayload : D) : Req → Except String D :=
  fun _ => Except.ok fixedPayload

/-- The HandlerConfig produced by `NewHandlerConfig`: the Page, the bound
ResponseGenerator and the Cache-Control string (src/engine/handler.go lines
15-28, fields used by the claims). -/
structure HandlerConfigM (Req D : Type) where
  page : Page
  responseGenerator : Req → Except String D
  cacheControl : String

/-- Embedding of `NewHandlerConfig` (src/engine/handler.go lines 44-74):
compute the Cache-Control string; when the Page's BackendURLPattern is empty
bind the static response generator over the Page's fixed payload, otherwise
bind the dynamic generator (an external collaborator here, since
`DynamicResponseGenerator` is not under src/). -/
def NewHandlerConfig {Req D : Type} (parseDuration : String → Option Int) (page : Page)
    (fixedPayload : D) (dynamicGenerator : Req → Except String D) : HandlerConfigM Req D :=
  let cacheTTL := newHandlerConfigCacheControl parseDuration page.CacheTTL
  if page.BackendURLPattern = "" then
    ⟨page, StaticResponseGenerator fixedPayload, cacheTTL⟩
  else
    ⟨page, dynamicGenerator, cacheTTL⟩

/-- A mustache template token: literal text or a variable reference. -/
inductive Tok where
  | text (s : String)
  | var (n : String)
deriving DecidableEq, Repr

/-- A data value for rendering: a finite name-to-text mapping. -/
abbrev RData := List (String × String)

/-- Look a name up along a mustache context chain: the first scope that binds
the name wins; an unbound name renders as empty text. -/
def chainLookup : List RData → String → String
  | [], _ => ""
  | d :: rest, n =>
    match d.lookup n with
    | some v => v
    | none => chainLookup rest n

/-- Render one token against a context chain. -/
def renderTok (chain : List RData) : Tok → String
  | Tok.text s => s
  | Tok.var n => chainLookup chain n

/-- Render a token list against a context chain. -/
def renderChain (t : List Tok) (chain : List RData) : String :=
  String.join (t.map (renderTok chain))

/-- `MustacheRenderer.Render` on a data value (src/engine/mustache.go lines
49-52): render the compiled template with the data as the only scope. -/
def render (t : List Tok) (d : RData) : String := renderChain t [d]

/-- Modelled from the spec: `mustache.Template.FRenderInLayout` lives in the
external mustache library, not under src/; per the spec it renders the inner
template against the data to a content fragment, then renders the layout
against a context whose "content" slot holds that fragment, with the original
data still visible beneath it. -/
def FRenderInLayout (t l : List Tok) (d : RData) : String :=
  renderChain l ([("content", renderChain t [d])] :: [d])

/-- `LayoutMustacheRenderer.Render` (src/engine/mustache.go lines 74-76):
delegate to `FRenderInLayout` with the stored template and layout. -/
def LayoutMustacheRenderer.Render (t l : List Tok) (d : RData) : String :=
  FRenderInLayout t l d

/-- A static pool binding every name to non-empty text without error. -/
def wStatics : String → GoResult := fun _ => ⟨"hi", none⟩

/-- A concrete Page: template "tpl", no layout, no backend URL pattern. -/
def wPage : Page := ⟨"n", "tpl", "", "1h", "", false⟩

/-- A concrete Page with a layout. -/
def wPageLayout : Page := ⟨"n", "tpl", "lay", "1h", "", false⟩

/-- A response generator that always fails (e.g. the backend returned 500). -/
def wGenFail : Nat → Except String String := fun _ => Except.error "backend 500"

/-- A response generator that always succeeds with fixed data. -/
def wGenOk : Nat → Except String String := fun _ => Except.ok "data"

/-- A renderer that always fails. -/
def wRenderFail : String → Option String := fun _ => some "render failed"

/-- A duration parser that rejects every string. -/
def wParseNone : String → Option Int := fun _ => none

/-- A duration parser mapping every string to 90 seconds of nanoseconds. -/
def wParseSome : String → Option Int := fun _ => some (90 * 1000000000)

/-- A dynamic response generator stand-in. -/
def wDynGen : Nat → Except String String := fun _ => Except.ok "dyn"

/-! Theorems about the embedded definitions. -/

/-- C1: `partialProvider.Get` returns the static pool's text whenever the
static pool returns it without error and the text is non-empty, even if a
dynamic entry with the same name exists; otherwise (static value erroring or
empty) it returns the dynamic pool's result unchanged; in particular with
static pool `{"x": ""}` and dynamic pool `{"x": "hello"}`, `get("x")` returns
`"hello"`. -/
theorem partialProvider_Get_static_precedence (statics dynamc : String → GoResult)
    (name : String) :
    ((statics name).err = none → (statics name).text ≠ "" →
      partialProvider.Get statics dynamc name = ⟨(statics name).text, none⟩) ∧
    ((statics name).err ≠ none ∨ (statics name).text = "" →
      partialProvider.Get statics dynamc name = dynamc name) ∧
    partialProvider.Get exampleStatics exampleDynamic "x" = ⟨"hello", none⟩ := by
  refine ⟨?_, ?_, by decide⟩
  · intro h1 h2
    simp only [partialProvider.Get]
    rw [if_pos ⟨h1, h2⟩]
  · intro h
    simp only [partialProvider.Get]
    rw [if_neg]
    rintro ⟨h1, h2⟩
    rcases h with h | h
    · exact h h1
    · exact h2 h

/-- C1 witness: at a static pool binding every name to non-empty "hi", the
combined resolver returns the static text. -/
theorem partialProvider_Get_static_precedence_witness :
    partialProvider.Get wStatics exampleDynamic "p" = ⟨(wStatics "p").text, none⟩ :=
  (partialProvider_Get_static_precedence wStatics exampleDynamic "p").1 rfl (by decide)

/-- C10: a static-pool error is never propagated: whenever the static lookup
errors or yields empty text the combined result is exactly the dynamic pool's
result, and any error the combined `Get` returns is the dynamic pool's
error. -/
theorem partialProvider_Get_error_from_dynamic_only (statics dynamc : String → GoResult)
    (name : String) :
    ((statics name).err ≠ none ∨ (statics name).text = "" →
      partialProvider.Get statics dynamc name = dynamc name) ∧
    (∀ e, (partialProvider.Get statics dynamc name).err = some e →
      partialProvider.Get statics dynamc name = dynamc name ∧ (dynamc name).err = some e) := by
  constructor
  · intro h
    simp only [partialProvider.Get]
    rw [if_neg]
    rintro ⟨h1, h2⟩
    rcases h with h | h
    · exact h h1
    · exact h2 h
  · intro e he
    by_cases hc : (statics name).err = none ∧ (statics name).text ≠ ""
    · exfalso
      simp only [partialProvider.Get] at he
      rw [if_pos hc] at he
      exact Option.noConfusion he
    · have hd : partialProvider.Get statics dynamc name = dynamc name := by
        simp only [partialProvider.Get]
        rw [if_neg hc]
      exact ⟨hd, by rw [hd] at he; exact he⟩

/-- C10 witness: with a static pool that errors on every name and the scenario
dynamic pool, the resolver's result on a missing name is the dynamic pool's
erroring result. -/
theorem partialProvider_Get_error_from_dynamic_only_witness :
    partialProvider.Get exampleStatics exampleDynamic "y" = exampleDynamic "y" ∧
    (exampleDynamic "y").err = some "file not found" :=
  (partialProvider_Get_error_from_dynamic_only exampleStatics exampleDynamic "y").2
    "file not found" (by decide)

/-- C5: the topic registered by `updateRenderer` is the template identifier
alone when the Page has no layout, and `layout ++ "-:-" ++ template` when a
layout is present; two Pages sharing template and layout share the topic. -/
theorem updateRendererTopic_spec (p q : Page) :
    (p.Layout = "" → updateRendererTopic p = p.Template) ∧
    (p.Layout ≠ "" → updateRendererTopic p = p.Layout ++ "-:-" ++ p.Template) ∧
    (p.Template = q.Template → p.Layout = q.Layout →
      updateRendererTopic p = updateRendererTopic q) := by
  refine ⟨?_, ?_, ?_⟩
  · intro h
    simp [updateRendererTopic, h]
  · intro h
    simp [updateRendererTopic, h]
  · intro hT hL
    simp [updateRendererTopic, hT, hL]

/-- C5 witness: concrete Pages with and without a layout yield "lay-:-tpl" and
"tpl" respectively. -/
theorem updateRendererTopic_spec_witness :
    updateRendererTopic wPageLayout = "lay" ++ "-:-" ++ "tpl" ∧
    updateRendererTopic wPage = "tpl" :=
  ⟨(updateRendererTopic_spec wPageLayout wPage).2.1 (by decide),
   (updateRendererTopic_spec wPage wPageLayout).1 rfl⟩

/-- C6: when the ResponseGenerator errors, `HandlerFunc` aborts with 500,
sets no Cache-Control header and never invokes the Renderer; when the
generation succeeds but the render errors, it likewise aborts with 500 after
exactly one render invocation (no retry in either case). -/
theorem HandlerFunc_error_paths {Req D : Type} (gen : Req → Except String D)
    (render : D → Option String) (cc : String) (req : Req) :
    (∀ e, gen req = Except.error e →
      HandlerFunc gen render cc req = ⟨some 500, none, 0⟩) ∧
    (∀ d e, gen req = Except.ok d → render d = some e →
      HandlerFunc gen render cc req = ⟨some 500, some cc, 1⟩) := by
  constructor
  · intro e h
    simp [HandlerFunc, h]
  · intro d e h1 h2
    simp [HandlerFunc, h1, h2]

/-- C6 witness: a failing generator yields a 500 with no Cache-Control and
zero renderer calls; a failing renderer after a successful generation yields a
500 after one renderer call. -/
theorem HandlerFunc_error_paths_witness :
    HandlerFunc wGenFail wRenderFail "cc" 0 = ⟨some 500, none, 0⟩ ∧
    HandlerFunc wGenOk wRenderFail "cc" 0 = ⟨some 500, some "cc", 1⟩ :=
  ⟨(HandlerFunc_error_paths wGenFail wRenderFail "cc" 0).1 "backend 500" rfl,
   (HandlerFunc_error_paths wGenOk wRenderFail "cc" 0).2 "data" "render failed" rfl rfl⟩

/-- The Cache-Control string in a `NewHandlerConfig` result does not depend on
which generator branch was taken. -/
theorem NewHandlerConfig_cacheControl_eq {Req D : Type} (parseDuration : String → Option Int)
    (page : Page) (payload : D) (dynGen : Req → Except String D) :
    (NewHandlerConfig parseDuration page payload dynGen).cacheControl =
      newHandlerConfigCacheControl parseDuration page.CacheTTL := by
  unfold NewHandlerConfig
  split <;> rfl

/-- C7: `NewHandlerConfig` computes the Cache-Control value from the Page's
cache-lifetime string: a parsed duration yields `"public, max-age=N"` with N
its whole seconds, an unparsable one defaults to one hour yielding
`"public, max-age=3600"`, and this value is the one attached by `HandlerFunc`
to every successful response. -/
theorem NewHandlerConfig_cacheControl_spec {Req D : Type} (parseDuration : String → Option Int)
    (page : Page) (payload : D) (dynGen : Req → Except String D) :
    (∀ d : Int, parseDuration page.CacheTTL = some d →
      (NewHandlerConfig parseDuration page payload dynGen).cacheControl =
        "public, max-age=" ++ toString (Int.tdiv d 1000000000)) ∧
    (parseDuration page.CacheTTL = none →
      (NewHandlerConfig parseDuration page payload dynGen).cacheControl =
        "public, max-age=3600") ∧
    (∀ (gen : Req → Except String D) (render : D → Option String) (req : Req) (d : D),
      gen req = Except.ok d →
      (HandlerFunc gen render
          (NewHandlerConfig parseDuration page payload dynGen).cacheControl req).cacheControl =
        some (NewHandlerConfig parseDuration page payload dynGen).cacheControl) := by
  rw [NewHandlerConfig_cacheControl_eq]
  refine ⟨?_, ?_, ?_⟩
  · intro d h
    simp [newHandlerConfigCacheControl, h, goSeconds]
  · intro h
    simp only [newHandlerConfigCacheControl, h, Option.getD]
    decide
  · intro gen render req d h
    cases hr : render d <;> simp [HandlerFunc, h, hr]

/-- C7 witness: an unparsable lifetime yields max-age 3600; a 90-second
lifetime yields max-age 90; the value is attached on a successful request. -/
theorem NewHandlerConfig_cacheControl_spec_witness :
    (NewHandlerConfig wParseNone wPage "payload" wDynGen).cacheControl =
      "public, max-age=3600" ∧
    (NewHandlerConfig wParseSome wPage "payload" wDynGen).cacheControl =
      "public, max-age=" ++ toString (Int.tdiv (90 * 1000000000) 1000000000) ∧
    (HandlerFunc wGenOk wRenderFail
        (NewHandlerConfig wParseNone wPage "payload" wDynGen).cacheControl 0).cacheControl =
      some (NewHandlerConfig wParseNone wPage "payload" wDynGen).cacheControl :=
  ⟨(NewHandlerConfig_cacheControl_spec wParseNone wPage "payload" wDynGen).2.1 rfl,
   (NewHandlerConfig_cacheControl_spec wParseSome wPage "payload" wDynGen).1
     (90 * 1000000000) rfl,
   (NewHandlerConfig_cacheControl_spec wParseNone wPage "payload" wDynGen).2.2
     wGenOk wRenderFail 0 "data" rfl⟩

/-- C8: for a Page whose backend URL pattern is empty, the generator bound by
`NewHandlerConfig` is the static one: it succeeds on every request, returns
the Page's fixed payload unchanged, and ignores the request entirely. -/
theorem NewHandlerConfig_static_generator {Req D : Type} (parseDuration : String → Option Int)
    (page : Page) (payload : D) (dynGen : Req → Except String D)
    (h : page.BackendURLPattern = "") (req1 req2 : Req) :
    (NewHandlerConfig parseDuration page payload dynGen).responseGenerator req1 =
      Except.ok payload ∧
    (NewHandlerConfig parseDuration page payload dynGen).responseGenerator req1 =
      (NewHandlerConfig parseDuration page payload dynGen).responseGenerator req2 := by
  unfold NewHandlerConfig
  rw [if_pos h]
  exact ⟨rfl, rfl⟩

/-- C8 witness: applied to the concrete Page with empty backend URL pattern. -/
theorem NewHandlerConfig_static_generator_witness :
    (NewHandlerConfig wParseNone wPage "payload" wDynGen).responseGenerator 0 =
      Except.ok "payload" :=
  (NewHandlerConfig_static_generator wParseNone wPage "payload" wDynGen rfl 0 1).1

/-- C2 counterexample: with two declared templates where only the first fails
to open (the second would open and parse fine on its own), the result map is
empty: the unrelated template "b" was NOT compiled, so a failure on one
template does abort the compilation of unrelated templates in the batch. -/
theorem NewMustacheRendererMap_abort_cex :
    (NewMustacheRendererMap cexOpen cexParse [("a", "pa"), ("b", "pb")]).2 =
      some "open failed" ∧
    (NewMustacheRendererMap cexOpen cexParse [("a", "pa"), ("b", "pb")]).1 = [] ∧
    compileOne cexOpen cexParse "pb" = Except.ok 0 := by
  decide

/-- Generalized loop form of the amended C2 statement. -/
theorem rendererMapLoop_stops_at_first_failure {R : Type}
    (fsOpen : String → Except String String) (parse : String → Except String R) :
    ∀ (pre : List (String × String)) (post : List (String × String)) (n p e : String)
      (acc : List (String × R)),
      (∀ x ∈ pre, ∃ r, compileOne fsOpen parse x.2 = Except.ok r) →
      compileOne fsOpen parse p = Except.error e →
      (rendererMapLoop fsOpen parse (pre ++ (n, p) :: post) acc).2 = some e ∧
      (rendererMapLoop fsOpen parse (pre ++ (n, p) :: post) acc).1.map Prod.fst =
        acc.map Prod.fst ++ pre.map Prod.fst := by
  intro pre
  induction pre with
  | nil =>
    intro post n p e acc _ hfail
    simp [rendererMapLoop, hfail]
  | cons x xs ih =>
    intro post n p e acc hpre hfail
    obtain ⟨xn, xp⟩ := x
    obtain ⟨r, hr⟩ := hpre ⟨xn, xp⟩ (by simp)
    have hrec := ih post n p e (acc ++ [(xn, r)])
      (fun y hy => hpre y (by simp [hy])) hfail
    simp only [List.cons_append, rendererMapLoop, hr, List.append_eq]
    refine ⟨hrec.1, ?_⟩
    rw [hrec.2]
    simp

/-- C2 amended: a failure to open or parse one template aborts the whole
batch: `NewMustacheRendererMap` returns the error together with the map built
so far, which holds exactly the templates declared before the failing one;
the templates declared after it are not compiled. -/
theorem NewMustacheRendererMap_stops_at_first_failure {R : Type}
    (fsOpen : String → Except String String) (parse : String → Except String R)
    (pre post : List (String × String)) (n p e : String)
    (hpre : ∀ x ∈ pre, ∃ r, compileOne fsOpen parse x.2 = Except.ok r)
    (hfail : compileOne fsOpen parse p = Except.error e) :
    (NewMustacheRendererMap fsOpen parse (pre ++ (n, p) :: post)).2 = some e ∧
    (NewMustacheRendererMap fsOpen parse (pre ++ (n, p) :: post)).1.map Prod.fst =
      pre.map Prod.fst := by
  have h := rendererMapLoop_stops_at_first_failure fsOpen parse pre post n p e []
    hpre hfail
  simpa [NewMustacheRendererMap] using h

/-- C2 witness: with "a" compiling, "b" failing to open and "c" declared after
it, the batch stops at "b": the error is returned and the map holds exactly
"a". -/
theorem NewMustacheRendererMap_stops_at_first_failure_witness :
    (NewMustacheRendererMap wOpen wParse [("a", "pa"), ("b", "bad"), ("c", "pc")]).2 =
      some "boom" ∧
    (NewMustacheRendererMap wOpen wParse [("a", "pa"), ("b", "bad"), ("c", "pc")]).1.map
        Prod.fst = ["a"] := by
  have h := NewMustacheRendererMap_stops_at_first_failure wOpen wParse
    [("a", "pa")] [("c", "pc")] "b" "bad" "boom"
    (by intro x hx; simp at hx; subst hx; exact ⟨9, by decide⟩) (by decide)
  simpa using h

/-- Looking a name up in the two-scope chain (a singleton "content" scope over
the data) agrees with looking it up in the data extended with the "content"
binding at the front. -/
theorem chainLookup_push (c f : String) (d : RData) (n : String) :
    chainLookup [[(c, f)], d] n = chainLookup [(c, f) :: d] n := by
  simp only [chainLookup, List.lookup]
  cases h : (n == c)
  case true => rfl
  case false => simp only [chainLookup]

/-- Rendering any token list against the two-scope chain agrees with rendering
it against the extended single scope. -/
theorem renderChain_push (l : List Tok) (c f : String) (d : RData) :
    renderChain l [[(c, f)], d] = renderChain l [(c, f) :: d] := by
  unfold renderChain
  congr 1
  apply List.map_congr_left
  intro tok _
  cases tok with
  | text s => rfl
  | var n => exact chainLookup_push c f d n

/-- C9 composition law: rendering with `LayoutMustacheRenderer(T, L)` produces
exactly what rendering T against D to a content fragment and then rendering L
against a value whose content slot holds that fragment produces — never the
reverse, and the inner template T is rendered against D alone, never seeing
the layout's markup. -/
theorem LayoutMustacheRenderer_composition (t l : List Tok) (d : RData) :
    LayoutMustacheRenderer.Render t l d = render l (("content", render t d) :: d) := by
  unfold LayoutMustacheRenderer.Render FRenderInLayout render
  exact renderChain_push l "content" (renderChain t [d]) d

/-- C3: in every Handler trace the current Renderer is never unset — it is
always the one supplied at construction or one delivered on the subscription
channel — and every served request uses such a Renderer and no other. -/
theorem Handler_renderer_provenance {R : Type} (r0 : R) (es : List (HandlerEvent R))
    (cur : R) (h : HandlerTrace r0 es cur) :
    (cur = r0 ∨ HandlerEvent.deliver cur ∈ es) ∧
    (∀ r, HandlerEvent.serve r ∈ es → r = r0 ∨ HandlerEvent.deliver r ∈ es) := by
  induction h with
  | nil =>
    refine ⟨Or.inl rfl, ?_⟩
    intro r hr
    simp at hr
  | deliver r h ih =>
    refine ⟨Or.inr (by simp), ?_⟩
    intro r2 hr2
    rw [List.mem_append] at hr2
    rcases hr2 with hr2 | hr2
    · rcases ih.2 r2 hr2 with h1 | h1
      · exact Or.inl h1
      · exact Or.inr (List.mem_append_left _ h1)
    · simp at hr2
  | serve h ih =>
    constructor
    · rcases ih.1 with h1 | h1
      · exact Or.inl h1
      · exact Or.inr (List.mem_append_left _ h1)
    · intro r2 hr2
      rw [List.mem_append] at hr2
      rcases hr2 with hr2 | hr2
      · rcases ih.2 r2 hr2 with h1 | h1
        · exact Or.inl h1
        · exact Or.inr (List.mem_append_left _ h1)
      · simp at hr2
        subst hr2
        rcases ih.1 with h1 | h1
        · exact Or.inl h1
        · exact Or.inr (List.mem_append_left _ h1)

/-- C3 witness: on the concrete trace deliver 1 then serve 1 starting from
initial renderer 0, the served renderer 1 is a delivered one. -/
theorem Handler_renderer_provenance_witness :
    (1 : Nat) = 0 ∨ HandlerEvent.deliver (1 : Nat) ∈
      [HandlerEvent.deliver (1 : Nat), HandlerEvent.serve 1] :=
  (Handler_renderer_provenance 0 [HandlerEvent.deliver 1, HandlerEvent.serve 1] 1
    (HandlerTrace.serve (HandlerTrace.deliver 1 HandlerTrace.nil))).2 1 (by decide)

/-- Prepending a received Renderer to an event list makes it the default for
the last-received computation. -/
theorem lastRecv_cons_recv {R : Type} (r dflt : R) (es : List (LoopEvent R)) :
    (lastRecv (LoopEvent.recv r :: es)).getD dflt = (lastRecv es).getD r := by
  simp only [lastRecv]
  cases lastRecv es <;> rfl

/-- Prepending a send leaves the last-received computation unchanged. -/
theorem lastRecv_cons_send {R : Type} (t : String) (dflt : R) (es : List (LoopEvent R)) :
    (lastRecv (LoopEvent.send t :: es)).getD dflt = (lastRecv es).getD dflt := by
  simp only [lastRecv]
  cases lastRecv es <;> rfl

/-- Shape of every accepted subscription-loop trace: events strictly alternate
according to the starting phase, every accepted Subscription carries the
Page's topic, and the final Renderer field is the last received Renderer (or
the starting one if none was received). -/
theorem loopTrace_shape {R : Type} (p : Page) {s sf : LoopState R}
    {es : List (LoopEvent R)} (h : LoopTrace p s es sf) :
    alternatesFrom s.phase es = true ∧
    (∀ t, LoopEvent.send t ∈ es → t = updateRendererTopic p) ∧
    sf.renderer = (lastRecv es).getD s.renderer := by
  induction h with
  | nil s =>
    refine ⟨by cases s.phase <;> rfl, ?_, rfl⟩
    intro t ht
    simp at ht
  | cons hstep htail ih =>
    rename_i s s1 s2 e es
    obtain ⟨ph, rend⟩ := s
    cases ph
    case registering =>
      cases e
      case recv r => simp [updateRendererStep] at hstep
      case send t =>
        simp only [updateRendererStep] at hstep
        by_cases ht : t = updateRendererTopic p
        · rw [if_pos ht] at hstep
          have hs1 := Option.some.inj hstep
          subst hs1
          refine ⟨?_, ?_, ?_⟩
          · simpa [alternatesFrom, isSendE] using ih.1
          · intro t2 ht2
            rcases List.mem_cons.mp ht2 with h2 | h2
            · rw [LoopEvent.send.inj h2]
              exact ht
            · exact ih.2.1 t2 h2
          · rw [lastRecv_cons_send]
            exact ih.2.2
        · rw [if_neg ht] at hstep
          exact Option.noConfusion hstep
    case waiting =>
      cases e
      case send t => simp [updateRendererStep] at hstep
      case recv r =>
        simp only [updateRendererStep] at hstep
        have hs1 := Option.some.inj hstep
        subst hs1
        refine ⟨?_, ?_, ?_⟩
        · simpa [alternatesFrom, isRecvE] using ih.1
        · intro t2 ht2
          rcases List.mem_cons.mp ht2 with h2 | h2
          · exact absurd h2 (by simp)
          · exact ih.2.1 t2 h2
        · rw [lastRecv_cons_recv]
          exact ih.2.2

/-- Alternating event lists have balanced counts: from `registering` the
receives never outnumber the sends and each send is followed by at most one
pending receive; dually from `waiting`. -/
theorem alternatesFrom_counts {R : Type} :
    ∀ (es : List (LoopEvent R)) (ph : LoopPhase), alternatesFrom ph es = true →
    (ph = LoopPhase.registering →
      es.countP isRecvE ≤ es.countP isSendE ∧
      es.countP isSendE ≤ es.countP isRecvE + 1) ∧
    (ph = LoopPhase.waiting →
      es.countP isSendE ≤ es.countP isRecvE ∧
      es.countP isRecvE ≤ es.countP isSendE + 1) := by
  intro es
  induction es with
  | nil =>
    intro ph _
    simp
  | cons e es ih =>
    intro ph ha
    cases ph
    case registering =>
      cases e
      case recv r => simp [alternatesFrom, isSendE] at ha
      case send t =>
        simp only [alternatesFrom, isSendE, Bool.true_and] at ha
        have hw := (ih LoopPhase.waiting ha).2 rfl
        refine ⟨fun _ => ?_, fun himp => absurd himp (by decide)⟩
        simp [List.countP_cons, isSendE, isRecvE]
        omega
    case waiting =>
      cases e
      case send t => simp [alternatesFrom, isRecvE] at ha
      case recv r =>
        simp only [alternatesFrom, isRecvE, Bool.true_and] at ha
        have hr := (ih LoopPhase.registering ha).1 rfl
        refine ⟨fun himp => absurd himp (by decide), fun _ => ?_⟩
        simp [List.countP_cons, isSendE, isRecvE]
        omega

/-- C4: the subscription loop is one-shot and re-arming: starting from the
registering phase its accepted events strictly alternate send, receive, send,
…, so deliveries never outnumber registrations and at most one registration
is ever pending; every accepted Subscription carries the Page's topic, and
after the trace the Handler's Renderer field is the last delivered Renderer
(or the initial one when none was delivered yet). -/
theorem updateRenderer_one_shot {R : Type} (p : Page) (r0 : R)
    (es : List (LoopEvent R)) (sf : LoopState R)
    (h : LoopTrace p ⟨LoopPhase.registering, r0⟩ es sf) :
    alternatesFrom LoopPhase.registering es = true ∧
    es.countP isRecvE ≤ es.countP isSendE ∧
    es.countP isSendE ≤ es.countP isRecvE + 1 ∧
    (∀ t, LoopEvent.send t ∈ es → t = updateRendererTopic p) ∧
    sf.renderer = (lastRecv es).getD r0 := by
  have hs := loopTrace_shape p h
  have hc := (alternatesFrom_counts es LoopPhase.registering hs.1).1 rfl
  exact ⟨hs.1, hc.1, hc.2, hs.2.1, hs.2.2⟩

/-- C4 witness: the concrete two-event trace send "tpl" then receive 7
alternates and installs renderer 7. -/
theorem updateRenderer_one_shot_witness :
    alternatesFrom LoopPhase.registering
        [LoopEvent.send "tpl", LoopEvent.recv (7 : Nat)] = true ∧
    (⟨LoopPhase.registering, (7 : Nat)⟩ : LoopState Nat).renderer =
      (lastRecv [LoopEvent.send "tpl", LoopEvent.recv (7 : Nat)]).getD 0 := by
  have h : LoopTrace wPage (⟨LoopPhase.registering, (0 : Nat)⟩ : LoopState Nat)
      [LoopEvent.send "tpl", LoopEvent.recv 7] ⟨LoopPhase.registering, 7⟩ :=
    @LoopTrace.cons Nat wPage ⟨LoopPhase.registering, 0⟩ ⟨LoopPhase.waiting, 0⟩
      ⟨LoopPhase.registering, 7⟩ (LoopEvent.send "tpl") [LoopEvent.recv 7] (by decide)
      (@LoopTrace.cons Nat wPage ⟨LoopPhase.waiting, 0⟩ ⟨LoopPhase.registering, 7⟩
        ⟨LoopPhase.registering, 7⟩ (LoopEvent.recv 7) [] (by decide)
        (LoopTrace.nil _))
  have hm := updateRenderer_one_shot wPage 0 [LoopEvent.send "tpl", LoopEvent.recv 7]
    ⟨LoopPhase.registering, 7⟩ h
  exact ⟨hm.1, hm.2.2.2.2⟩

end Engine
